import Mathlib

/-!
Verification of the scroll-synchronized animation sequencing pattern of this
repository (a GSAP/React marketing site).  The development shallowly embeds:

* the font-readiness hook (src/src/hooks/useFontsLoaded.js) as a boolean
  signal over discrete time (milliseconds since the mount effect ran);
* the animation setup callback of each section as a pure function from its
  inputs (document match counts, the readiness flag, the viewport flag) to
  the ordered list of effects it performs (text splits, attribute strips,
  timeline constructions, standalone tweens);
* GSAP timeline insertion semantics for the three position modes the code
  uses: append at the current end of the timeline, the relative position
  string minus-equals d (current end of the timeline minus d), and the
  less-than string (start of the most recently added step);
* the useGSAP dependency-array contract of the gsap react adapter: the
  setup callback re-runs exactly when a value listed in the dependency
  array changes, and an omitted array defaults to the empty array, meaning
  the callback runs once on mount only;
* the testimonial hover handlers (handlePlay / handlePause) over an array
  of optional video elements, where an unset reference makes the handler
  throw a TypeError, modelled as an error result.

Property maps of individual tweens (opacity, clipPath, colors and so on)
are elided from the step records: no statement below inspects them.  Each
step records its target, kind (to / from), duration (GSAP default 0.5 s
when the source omits it), per-target stagger and computed start offset;
times are integers in milliseconds, so 0.5 s is written 500.  The
model takes a step span as its duration; stagger offsets are recorded per
step.  In the hero timeline, whose insertion arithmetic is inspected below,
no relative insertion follows a staggered step, so every computed start
matches the engine exactly.
-/

set_option linter.unusedVariables false

/-- Environment of the font hook: which platform facilities exist and what
they observe over time (milliseconds since the mount effect ran).
`fontsReady` models availability of document.fonts.ready, `readyResolve`
the resolution time of that promise, `fontsCheck` availability of
document.fonts.check, and `antonio` / `proxima` the result of checking the
two project fonts at a given time. -/
structure FontEnv where
  fontsReady : Bool
  readyResolve : Option Nat
  fontsCheck : Bool
  antonio : Nat → Bool
  proxima : Nat → Bool

/-- The useState initializer of the hook: useState(false). -/
def initialFontsLoaded : Bool := false

/-- Conjunction of the two font checks performed by one polling attempt. -/
def checkBoth (env : FontEnv) (t : Nat) : Bool :=
  env.antonio t && env.proxima t

/-- Value of the fontsLoaded signal at time t (ms after the effect ran),
translated from useFontsLoaded: if document.fonts.ready exists the signal
is true from the promise resolution time on; otherwise, if
document.fonts.check exists, checkFonts polls at times 0, 100, 200, ...
and the signal is true once some poll saw both fonts; otherwise a single
1000 ms timer forces the signal true. -/
def useFontsLoaded (env : FontEnv) (t : Nat) : Bool :=
  if env.fontsReady then
    match env.readyResolve with
    | some r => decide (r ≤ t)
    | none => false
  else if env.fontsCheck then
    (List.range (t / 100 + 1)).any fun i => checkBoth env (100 * i)
  else
    decide (1000 ≤ t)

/-- Environment where the promise facility exists and resolves at 50 ms. -/
def promiseEnv : FontEnv :=
  { fontsReady := true
    readyResolve := some 50
    fontsCheck := true
    antonio := fun _ => false
    proxima := fun _ => false }

/-- Environment with no promise facility, a working check facility, and
fonts that never report as loaded: the polling branch runs forever. -/
def badFontEnv : FontEnv :=
  { fontsReady := false
    readyResolve := none
    fontsCheck := true
    antonio := fun _ => false
    proxima := fun _ => false }

/-- Environment where neither the promise nor the check facility exists:
the 1000 ms fallback timer is the only completion path. -/
def noCheckEnv : FontEnv :=
  { fontsReady := false
    readyResolve := none
    fontsCheck := false
    antonio := fun _ => false
    proxima := fun _ => false }

/-- Scrub mode of a ScrollTrigger: absent, boolean true, or a numeric
smoothing factor stored in tenths (the source value 1.5 is stored as
15). -/
inductive Scrub
  | off
  | on
  | smooth (tenths : Int)
  deriving DecidableEq

/-- A scroll condition: either a position string such as "top center", or
a pixel distance written as a plus-equals offset in the source. -/
inductive ScrollCond
  | pos (s : String)
  | px (q : Int)
  deriving DecidableEq

/-- ScrollTrigger configuration as written in the source. -/
structure ScrollTrig where
  trigger : String
  startCond : ScrollCond
  endCond : Option ScrollCond
  scrub : Scrub
  pin : Bool
  deriving DecidableEq

/-- Tween kind: gsap .to or .from. -/
inductive TweenKind
  | gsapTo
  | gsapFrom
  deriving DecidableEq

/-- Target of a tween: a CSS selector, or the chars / words array of a
SplitText result for a source selector. -/
inductive Targets
  | sel (s : String)
  | splitChars (source : String)
  | splitWords (source : String)
  deriving DecidableEq

/-- Insertion position of a step: appended at the current end of the
timeline (no position argument), the current end minus d (the
minus-equals position string), or the start of the previously added step
(the less-than position string). -/
inductive Pos
  | append
  | back (d : Int)
  | prev
  deriving DecidableEq

/-- One placed animation step.  `start` is the absolute offset inside its
timeline, computed at insertion.  All times are in milliseconds (the
source writes seconds: 0.5 s is 500 here). -/
structure Step where
  target : Targets
  kind : TweenKind
  duration : Int
  stagger : Int
  start : Int
  deriving DecidableEq

/-- Placeholder step used as the default of list lookups. -/
def step0 : Step :=
  { target := Targets.sel ""
    kind := TweenKind.gsapTo
    duration := 0
    stagger := 0
    start := 0 }

/-- A timeline: configuration plus steps in insertion order.  `lastStart`
remembers the start of the most recently added step, for the less-than
position. -/
structure Timeline where
  delay : Int
  scrollTrigger : Option ScrollTrig
  steps : List Step
  lastStart : Int
  deriving DecidableEq

/-- Current end of a timeline: latest stop over its steps, 0 when empty. -/
def Timeline.endTime (tl : Timeline) : Int :=
  tl.steps.foldr (fun s m => max (s.start + s.duration) m) 0

/-- gsap.timeline with a delay and an optional scrollTrigger. -/
def gsapTimeline (delay : Int) (st : Option ScrollTrig) : Timeline :=
  { delay := delay, scrollTrigger := st, steps := [], lastStart := 0 }

/-- Insert a step, computing its start from the position mode. -/
def Timeline.add (tl : Timeline) (target : Targets) (kind : TweenKind)
    (duration stagger : Int) (p : Pos) : Timeline :=
  let s : Int :=
    match p with
    | Pos.append => tl.endTime
    | Pos.back d => tl.endTime - d
    | Pos.prev => tl.lastStart
  { tl with
      steps := tl.steps ++
        [{ target := target, kind := kind, duration := duration,
           stagger := stagger, start := s }]
      lastStart := s }

/-- Timeline .to with a target selector. -/
def Timeline.toSel (tl : Timeline) (sel : String) (duration stagger : Int)
    (p : Pos) : Timeline :=
  tl.add (Targets.sel sel) TweenKind.gsapTo duration stagger p

/-- Timeline .from with an arbitrary target. -/
def Timeline.fromTgt (tl : Timeline) (t : Targets) (duration stagger : Int)
    (p : Pos) : Timeline :=
  tl.add t TweenKind.gsapFrom duration stagger p

/-- Match-count view of the live document: selector to number of matching
elements.  The section sources never consult it during animation setup;
it is threaded through the setup functions to make that checkable. -/
abbrev Dom := String → Nat

/-- Document in which every selector matches zero elements. -/
def emptyDom : Dom := fun _ => 0

/-- One observable action performed by a section setup callback. -/
inductive Effect
  | split (source : String) (granularity : String)
  | stripAriaLabels (scope : String)
  | setVars (target : String)
  | timeline (tl : Timeline)
  | tween (t : Step) (st : Option ScrollTrig)
  | report (msg : String)
  deriving DecidableEq

/-- Error reports contained in an effect list (there are none anywhere in
the sections: the constructor exists so that absence is expressible). -/
def reports (es : List Effect) : List String :=
  es.filterMap fun e =>
    match e with
    | Effect.report m => some m
    | _ => none

/-- SplitText creations contained in an effect list. -/
def splits (es : List Effect) : List (String × String) :=
  es.filterMap fun e =>
    match e with
    | Effect.split s g => some (s, g)
    | _ => none

/-- Scopes whose aria-label attributes are stripped after segmentation. -/
def ariaStrips (es : List Effect) : List String :=
  es.filterMap fun e =>
    match e with
    | Effect.stripAriaLabels s => some s
    | _ => none

/-- Timelines contained in an effect list. -/
def timelinesOf (es : List Effect) : List Timeline :=
  es.filterMap fun e =>
    match e with
    | Effect.timeline tl => some tl
    | _ => none

/-- Whether a timeline pins its trigger element. -/
def hasPin (tl : Timeline) : Bool :=
  match tl.scrollTrigger with
  | some st => st.pin
  | none => false

/-- Timelines in an effect list whose ScrollTrigger pins. -/
def pinnedTimelines (es : List Effect) : List Timeline :=
  es.filterMap fun e =>
    match e with
    | Effect.timeline tl => if hasPin tl then some tl else none
    | _ => none

/-- Main hero timeline (HeroSection.jsx lines 44 to 73): delay 1; fade-in
of .hero-content (default duration 0.5, appended); clip reveal of
.hero-text-scroll (duration 1, minus-equals 0.5); character slide of the
title split (default duration 0.5, stagger 0.02, minus-equals 0.5). -/
def heroMainTl : Timeline :=
  (((gsapTimeline 1000 none).toSel ".hero-content" 500 0 Pos.append).toSel
      ".hero-text-scroll" 1000 0 (Pos.back 500)).fromTgt
    (Targets.splitChars ".hero-title") 500 20 (Pos.back 500)

/-- Scroll-scrubbed hero parallax timeline (HeroSection.jsx lines 76 to
91). -/
def heroScrollTl : Timeline :=
  (gsapTimeline 0 (some
    { trigger := ".hero-container"
      startCond := ScrollCond.pos "1% top"
      endCond := some (ScrollCond.pos "bottom top")
      scrub := Scrub.on
      pin := false })).toSel ".hero-container" 500 0 Pos.append

/-- Effects of the HeroSection useGSAP callback, in execution order.  The
callback returns before doing anything when fontsLoaded is false. -/
def heroSetup (dom : Dom) (fontsLoaded : Bool) : List Effect :=
  if fontsLoaded = false then []
  else
    [ Effect.split ".hero-title" "chars"
    , Effect.timeline heroMainTl
    , Effect.timeline heroScrollTl ]

/-- Reveal timeline of the MessageSection (delay 1, play-once trigger). -/
def msgRevealTl : Timeline :=
  (gsapTimeline 1000 (some
    { trigger := ".msg-text-scroll"
      startCond := ScrollCond.pos "top 60%"
      endCond := none
      scrub := Scrub.off
      pin := false })).toSel ".msg-text-scroll" 1000 0 Pos.append

/-- Paragraph timeline of the MessageSection. -/
def msgParagraphTl : Timeline :=
  (gsapTimeline 0 (some
    { trigger := ".message-content p"
      startCond := ScrollCond.pos "top center"
      endCond := none
      scrub := Scrub.off
      pin := false })).fromTgt (Targets.splitWords ".message-content p") 1000
    10 Pos.append

/-- Effects of the MessageSection useGSAP callback, in execution order. -/
def messageSetup (dom : Dom) (fontsLoaded : Bool) : List Effect :=
  if fontsLoaded = false then []
  else
    [ Effect.split ".first-message" "words"
    , Effect.split ".second-message" "words"
    , Effect.split ".message-content p" "words, lines"
    , Effect.stripAriaLabels ".message-content"
    , Effect.tween
        { target := Targets.splitWords ".first-message"
          kind := TweenKind.gsapTo, duration := 500, stagger := 1000, start := 0 }
        (some { trigger := ".message-content"
                startCond := ScrollCond.pos "top center"
                endCond := some (ScrollCond.pos "30% center")
                scrub := Scrub.on
                pin := false })
    , Effect.tween
        { target := Targets.splitWords ".second-message"
          kind := TweenKind.gsapTo, duration := 500, stagger := 1000, start := 0 }
        (some { trigger := ".second-message"
                startCond := ScrollCond.pos "top center"
                endCond := some (ScrollCond.pos "bottom center")
                scrub := Scrub.on
                pin := false })
    , Effect.timeline msgRevealTl
    , Effect.timeline msgParagraphTl ]

/-- Effects of the FlavorTitle useGSAP callback, in execution order. -/
def flavorTitleSetup (dom : Dom) (fontsLoaded : Bool) : List Effect :=
  if fontsLoaded = false then []
  else
    [ Effect.split ".first-text-split h1" "chars"
    , Effect.split ".second-text-split h1" "chars"
    , Effect.tween
        { target := Targets.splitChars ".first-text-split h1"
          kind := TweenKind.gsapFrom, duration := 500, stagger := 20
          start := 0 }
        (some { trigger := ".flavor-section"
                startCond := ScrollCond.pos "top 30%"
                endCond := none, scrub := Scrub.off, pin := false })
    , Effect.tween
        { target := Targets.sel ".flavor-text-scroll"
          kind := TweenKind.gsapTo, duration := 1000, stagger := 0, start := 0 }
        (some { trigger := ".flavor-section"
                startCond := ScrollCond.pos "top 10%"
                endCond := none, scrub := Scrub.off, pin := false })
    , Effect.tween
        { target := Targets.splitChars ".second-text-split h1"
          kind := TweenKind.gsapFrom, duration := 500, stagger := 20
          start := 0 }
        (some { trigger := ".flavor-section"
                startCond := ScrollCond.pos "top 1%"
                endCond := none, scrub := Scrub.off, pin := false }) ]

/-- Content timeline of the NutritionSection. -/
def nutritionContentTl : Timeline :=
  ((gsapTimeline 0 (some
    { trigger := ".nutrition-section"
      startCond := ScrollCond.pos "top center"
      endCond := none
      scrub := Scrub.off
      pin := false })).fromTgt (Targets.splitChars ".nutrition-title") 500
      20 Pos.append).fromTgt
    (Targets.splitWords ".nutrition-section p") 1000 10 Pos.append

/-- Title reveal timeline of the NutritionSection. -/
def nutritionTitleTl : Timeline :=
  (gsapTimeline 0 (some
    { trigger := ".nutrition-section"
      startCond := ScrollCond.pos "top 80%"
      endCond := none
      scrub := Scrub.off
      pin := false })).toSel ".nutrition-text-scroll" 1000 0 Pos.append

/-- Effects of the NutritionSection useGSAP callback, in execution order.
The callback itself reads only fontsLoaded (isMobile is only listed in
its dependency array). -/
def nutritionSetup (dom : Dom) (fontsLoaded : Bool) : List Effect :=
  if fontsLoaded = false then []
  else
    [ Effect.split ".nutrition-title" "chars"
    , Effect.split ".nutrition-section p" "words, lines"
    , Effect.stripAriaLabels ".nutrition-section"
    , Effect.timeline nutritionContentTl
    , Effect.timeline nutritionTitleTl ]

/-- Reveal timeline of the BenefitSection: delay 1, scrubbed trigger, four
appended clip-path reveals of duration 1 each. -/
def benefitRevealTl : Timeline :=
  (((((gsapTimeline 1000 (some
    { trigger := ".benefit-section"
      startCond := ScrollCond.pos "top 60%"
      endCond := some (ScrollCond.pos "top top")
      scrub := Scrub.smooth 15
      pin := false })).toSel ".benefit-section .first-title" 1000 0
        Pos.append).toSel ".benefit-section .second-title" 1000 0
        Pos.append).toSel ".benefit-section .third-title" 1000 0
        Pos.append).toSel ".benefit-section .fourth-title" 1000 0 Pos.append)

/-- Effects of the BenefitSection useGSAP callback (no readiness gate and
no viewport branch in the source). -/
def benefitSetup (dom : Dom) : List Effect :=
  [Effect.timeline benefitRevealTl]

/-- Desktop-only horizontal scroll timeline of the FlavorSlider: pinned,
scrubbed, scroll distance extended by 1500 px past the measured
overflow. -/
def flavorHorizontalTl (scrollAmount : Int) : Timeline :=
  (gsapTimeline 0 (some
    { trigger := ".flavor-section"
      startCond := ScrollCond.pos "2% top"
      endCond := some (ScrollCond.px (scrollAmount + 1500))
      scrub := Scrub.on
      pin := true })).toSel ".flavor-section" 500 0 Pos.append

/-- Title parallax timeline of the FlavorSlider (built on all devices):
three tweens, the second and third inserted at the start of the previous
step. -/
def flavorTitleParallaxTl : Timeline :=
  (((gsapTimeline 0 (some
    { trigger := ".flavor-section"
      startCond := ScrollCond.pos "top top"
      endCond := some (ScrollCond.pos "bottom 80%")
      scrub := Scrub.on
      pin := false })).toSel ".first-text-split" 500 0
        Pos.append).toSel ".flavor-text-scroll" 500 0
        Pos.prev).toSel ".second-text-split" 500 0 Pos.prev

/-- Effects of the FlavorSlider useGSAP callback: the horizontal pinned
timeline is created only when isTablet is false; the parallax timeline is
always created.  scrollAmount is the measured overflow width. -/
def flavorSliderSetup (dom : Dom) (isTablet : Bool) (scrollAmount : Int) :
    List Effect :=
  (if isTablet = false then [Effect.timeline (flavorHorizontalTl scrollAmount)]
   else []) ++ [Effect.timeline flavorTitleParallaxTl]

/-- The tablet media query of the FlavorSlider: max-width 1024px. -/
def isTabletAt (width : Nat) : Bool := decide (width ≤ 1024)

/-- Inputs a useGSAP callback may depend on in this repository. -/
inductive DepVar
  | fontsLoaded
  | isMobile
  | isTablet
  deriving DecidableEq

/-- One useGSAP call: the dependency array passed to the hook ([] when the
source omits it, per the adapter default), and the inputs the callback
actually branches on. -/
structure GsapCall where
  deps : List DepVar
  reads : List DepVar
  deriving DecidableEq

/-- App.jsx: useGSAP(..., [fontsLoaded]); callback reads fontsLoaded. -/
def appGsap : GsapCall :=
  { deps := [DepVar.fontsLoaded], reads := [DepVar.fontsLoaded] }

/-- HeroSection.jsx: useGSAP(..., [fontsLoaded]). -/
def heroGsap : GsapCall :=
  { deps := [DepVar.fontsLoaded], reads := [DepVar.fontsLoaded] }

/-- MessageSection: useGSAP(..., [fontsLoaded]). -/
def messageGsap : GsapCall :=
  { deps := [DepVar.fontsLoaded], reads := [DepVar.fontsLoaded] }

/-- FlavorTitle.jsx: useGSAP(..., [fontsLoaded]). -/
def flavorTitleGsap : GsapCall :=
  { deps := [DepVar.fontsLoaded], reads := [DepVar.fontsLoaded] }

/-- FlavorSlider: useGSAP with no dependency array; the callback branches
on isTablet. -/
def flavorSliderGsap : GsapCall :=
  { deps := [], reads := [DepVar.isTablet] }

/-- NutritionSection: useGSAP(..., [fontsLoaded, isMobile]); the callback
body reads only fontsLoaded. -/
def nutritionGsap : GsapCall :=
  { deps := [DepVar.fontsLoaded, DepVar.isMobile]
    reads := [DepVar.fontsLoaded] }

/-- BenefitSection: useGSAP with no dependency array and no branching. -/
def benefitGsap : GsapCall :=
  { deps := [], reads := [] }

/-- VideoPinSection: useGSAP with no dependency array; the callback
branches on isMobile. -/
def videoPinGsap : GsapCall :=
  { deps := [], reads := [DepVar.isMobile] }

/-- TestimonialSection.jsx: useGSAP with no dependency array; the callback
branches on isMobile. -/
def testimonialGsap : GsapCall :=
  { deps := [], reads := [DepVar.isMobile] }

/-- Adapter contract of useGSAP: after mount, the setup callback re-runs
(building its timelines afresh) exactly when some value listed in the
dependency array differs between the previous and the next render. -/
def rerunsOnChange (c : GsapCall) (old new : DepVar → Bool) : Bool :=
  c.deps.any fun v => old v != new v

/-- Input valuation before a viewport resize: everything false. -/
def depsBefore : DepVar → Bool := fun _ => false

/-- Input valuation after a resize that crossed the tablet breakpoint:
only isTablet changed. -/
def depsAfter : DepVar → Bool := fun v =>
  match v with
  | DepVar.isTablet => true
  | _ => false

/-- vdRef.current of the TestimonialSection: index to video element; an
element is modelled by its playing state, an unset slot by none. -/
abbrev VideoRefs := List (Option Bool)

/-- handlePlay: reads vdRef.current[index] and calls .play() on it with no
guard.  An unset reference throws a TypeError (error result); otherwise
the indexed video becomes playing. -/
def handlePlay (vd : VideoRefs) (index : Nat) : Except String VideoRefs :=
  match vd.getD index none with
  | none => Except.error "TypeError: video element reference is unset"
  | some _ => Except.ok (vd.set index (some true))

/-- handlePause: reads vdRef.current[index] and calls .pause() on it with
no guard. -/
def handlePause (vd : VideoRefs) (index : Nat) : Except String VideoRefs :=
  match vd.getD index none with
  | none => Except.error "TypeError: video element reference is unset"
  | some _ => Except.ok (vd.set index (some false))

/-- The signal never goes back from true to false: it is monotone in time.
Helper shared by the latch and timeout statements. -/
theorem useFontsLoaded_mono (env : FontEnv) (s t : Nat) (hst : s ≤ t)
    (h : useFontsLoaded env s = true) : useFontsLoaded env t = true := by
  cases hr : env.fontsReady with
  | true =>
    cases ho : env.readyResolve with
    | none => simp [useFontsLoaded, hr, ho] at h
    | some r =>
      simp [useFontsLoaded, hr, ho] at h ⊢
      omega
  | false =>
    cases hc : env.fontsCheck with
    | false =>
      simp [useFontsLoaded, hr, hc] at h ⊢
      omega
    | true =>
      simp [useFontsLoaded, hr, hc, List.any_eq_true, List.mem_range] at h ⊢
      obtain ⟨i, hi, hp⟩ := h
      have hdiv : s / 100 ≤ t / 100 := Nat.div_le_div_right hst
      exact ⟨i, by omega, hp⟩

/-- Once the signal is ever true there is a unique transition instant:
false strictly before it, true from it on.  Helper for the latch claim. -/
theorem useFontsLoaded_first_transition (env : FontEnv) (t : Nat)
    (h : useFontsLoaded env t = true) :
    ∃ t0 : Nat, (∀ s, s < t0 → useFontsLoaded env s = false) ∧
      (∀ s, t0 ≤ s → useFontsLoaded env s = true) := by
  have hex : ∃ n, useFontsLoaded env n = true := ⟨t, h⟩
  refine ⟨Nat.find hex, ?_, ?_⟩
  · intro s hs
    exact Bool.eq_false_iff.mpr (Nat.find_min hex hs)
  · intro s hs
    exact useFontsLoaded_mono env (Nat.find hex) s hs (Nat.find_spec hex)

/-- C1: the readiness signal of useFontsLoaded is a one-shot latch: for
every mount it is initially false, it never transitions from true back to
false, and if any completion path ever fires there is a single instant
before which it is false and from which it is true. -/
theorem useFontsLoaded_one_shot_latch (env : FontEnv) :
    initialFontsLoaded = false ∧
    (∀ s t : Nat, s ≤ t → useFontsLoaded env s = true →
      useFontsLoaded env t = true) ∧
    (∀ t : Nat, useFontsLoaded env t = true →
      ∃ t0 : Nat, (∀ s, s < t0 → useFontsLoaded env s = false) ∧
        (∀ s, t0 ≤ s → useFontsLoaded env s = true)) :=
  ⟨rfl, fun s t hst h => useFontsLoaded_mono env s t hst h,
    fun t h => useFontsLoaded_first_transition env t h⟩

/-- Witness for C1: in the promise environment resolving at 50 ms the
signal is true at 60 ms, by monotonicity from 50 ms. -/
theorem useFontsLoaded_one_shot_latch_witness :
    useFontsLoaded promiseEnv 60 = true :=
  (useFontsLoaded_one_shot_latch promiseEnv).2.1 50 60 (by decide) (by decide)

/-- C2 counterexample: with the promise facility unavailable and the check
facility available but the fonts never reporting as loaded, the polling
branch reschedules itself forever and the readiness signal never becomes
true: there is no bounded number of attempts and no forced timeout on
this path. -/
theorem fallback_poll_can_hang_forever :
    badFontEnv.fontsReady = false ∧ badFontEnv.fontsCheck = true ∧
    ¬ ∃ t : Nat, useFontsLoaded badFontEnv t = true := by
  refine ⟨rfl, rfl, ?_⟩
  rintro ⟨t, ht⟩
  simp [useFontsLoaded, badFontEnv, checkBoth] at ht

/-- C2 amended: when the platform promise is unavailable, readiness is
forced true after the bounded 1000 ms timeout only if the synchronous
check facility is also unavailable; when the check facility is available
the hook polls both fonts at fixed 100 ms intervals with an unbounded
number of attempts, the signal only changes on the 100 ms grid, and it
becomes true exactly when some poll has observed both fonts. -/
theorem fallback_timeout_semantics (env : FontEnv)
    (h : env.fontsReady = false) :
    (env.fontsCheck = false → ∀ t : Nat, 1000 ≤ t →
      useFontsLoaded env t = true) ∧
    (env.fontsCheck = true → ∀ t : Nat,
      useFontsLoaded env t = useFontsLoaded env (100 * (t / 100))) ∧
    (env.fontsCheck = true → ∀ t : Nat,
      (useFontsLoaded env t = true ↔
        ∃ i, i ≤ t / 100 ∧ checkBoth env (100 * i) = true)) := by
  refine ⟨?_, ?_, ?_⟩
  · intro hc t ht
    simp [useFontsLoaded, h, hc, ht]
  · intro hc t
    have hq : 100 * (t / 100) / 100 = t / 100 :=
      Nat.mul_div_cancel_left _ (by norm_num)
    simp [useFontsLoaded, h, hc, hq]
  · intro hc t
    simp [useFontsLoaded, h, hc, List.any_eq_true, List.mem_range,
      Nat.lt_succ_iff]

/-- Witness for C2 amended: with neither facility available the signal is
true at exactly the 1000 ms timeout. -/
theorem fallback_timeout_semantics_witness :
    useFontsLoaded noCheckEnv 1000 = true :=
  (fallback_timeout_semantics noCheckEnv rfl).1 rfl 1000 (le_refl 1000)

/-- C3: with the readiness flag false, every text-segmenting section
(hero, message, flavor title, nutrition) returns from its setup callback
before creating any SplitText segmentation or any timeline: the effect
list is empty. -/
theorem no_split_before_fonts_ready (dom : Dom) :
    heroSetup dom false = [] ∧ messageSetup dom false = [] ∧
    flavorTitleSetup dom false = [] ∧ nutritionSetup dom false = [] :=
  ⟨rfl, rfl, rfl, rfl⟩

/-- Witness for C3 at the concrete empty document. -/
theorem no_split_before_fonts_ready_witness :
    heroSetup emptyDom false = [] :=
  (no_split_before_fonts_ready emptyDom).1

/-- C4 counterexample: the FlavorSlider callback branches on the viewport
class isTablet but its useGSAP call passes no dependency array (which
defaults to run-once-on-mount), so a render in which isTablet changed
does not re-run the setup: the previously built timeline is neither torn
down nor rebuilt. -/
theorem viewport_change_without_rebuild :
    flavorSliderGsap.reads = [DepVar.isTablet] ∧
    depsBefore DepVar.isTablet ≠ depsAfter DepVar.isTablet ∧
    rerunsOnChange flavorSliderGsap depsBefore depsAfter = false :=
  ⟨rfl, by decide, rfl⟩

/-- C4 amended: sections that pass a dependency array (app shell, hero,
message, flavor title, nutrition) re-run their setup, rebuilding fresh
timelines, exactly when a listed dependency changes; FlavorSlider,
TestimonialSection, VideoPinSection and BenefitSection pass no array, so
no change of the readiness signal or of the viewport class they branch on
ever re-runs their setup after mount. -/
theorem gsap_dependency_rerun_semantics (old new : DepVar → Bool) :
    (rerunsOnChange heroGsap old new = true ↔
      old DepVar.fontsLoaded ≠ new DepVar.fontsLoaded) ∧
    (rerunsOnChange messageGsap old new = true ↔
      old DepVar.fontsLoaded ≠ new DepVar.fontsLoaded) ∧
    (rerunsOnChange flavorTitleGsap old new = true ↔
      old DepVar.fontsLoaded ≠ new DepVar.fontsLoaded) ∧
    (rerunsOnChange appGsap old new = true ↔
      old DepVar.fontsLoaded ≠ new DepVar.fontsLoaded) ∧
    (rerunsOnChange nutritionGsap old new = true ↔
      (old DepVar.fontsLoaded ≠ new DepVar.fontsLoaded ∨
        old DepVar.isMobile ≠ new DepVar.isMobile)) ∧
    rerunsOnChange flavorSliderGsap old new = false ∧
    rerunsOnChange testimonialGsap old new = false ∧
    rerunsOnChange videoPinGsap old new = false ∧
    rerunsOnChange benefitGsap old new = false := by
  simp [rerunsOnChange, heroGsap, messageGsap, flavorTitleGsap, appGsap,
    nutritionGsap, flavorSliderGsap, testimonialGsap, videoPinGsap,
    benefitGsap, bne_iff_ne]

/-- Witness for C4 amended: after a resize crossing the tablet breakpoint
the TestimonialSection setup does not re-run. -/
theorem gsap_dependency_rerun_semantics_witness :
    rerunsOnChange testimonialGsap depsBefore depsAfter = false :=
  (gsap_dependency_rerun_semantics depsBefore depsAfter).2.2.2.2.2.2.1

/-- C5 counterexample: against a document in which every selector matches
zero elements, the hero and benefit setups still construct their steps
unchanged and report nothing: a zero-target step is silently accepted,
with no assertion and no development-build report. -/
theorem zero_target_silently_accepted :
    (heroSetup emptyDom true).length = 3 ∧
    reports (heroSetup emptyDom true) = [] ∧
    (benefitSetup emptyDom).length = 1 ∧
    reports (benefitSetup emptyDom) = [] :=
  ⟨rfl, rfl, rfl, rfl⟩

/-- C5 amended: animation setup never consults how many elements a
selector matches and never reports a configuration error: the effect list
is identical for every document, and its report list is empty; a
zero-target step is handed to the animation engine unchanged (the engine,
not the section code, is what degrades it to a no-op, and nothing
crashes). -/
theorem setup_independent_of_match_counts (dom dom2 : Dom) (b : Bool) :
    heroSetup dom b = heroSetup dom2 b ∧
    reports (heroSetup dom b) = [] ∧
    benefitSetup dom = benefitSetup dom2 ∧
    reports (benefitSetup dom) = [] := by
  cases b <;> exact ⟨rfl, rfl, rfl, rfl⟩

/-- Witness for C5 amended at the empty document. -/
theorem setup_independent_of_match_counts_witness :
    reports (heroSetup emptyDom true) = [] :=
  (setup_independent_of_match_counts emptyDom emptyDom true).2.1

/-- C6 counterexample: the hero and flavor-title setups each perform
character segmentation yet strip no aria-label attribute afterwards, so
the segmentation byproducts stay in place for those two sections. -/
theorem hero_split_keeps_aria_labels :
    splits (heroSetup emptyDom true) = [(".hero-title", "chars")] ∧
    ariaStrips (heroSetup emptyDom true) = [] ∧
    splits (flavorTitleSetup emptyDom true) =
      [(".first-text-split h1", "chars"), (".second-text-split h1", "chars")] ∧
    ariaStrips (flavorTitleSetup emptyDom true) = [] :=
  ⟨rfl, rfl, rfl, rfl⟩

/-- C6 amended: only the message and nutrition sections strip the
aria-label attributes introduced by segmentation (over their whole
section scope); the hero title and flavor title segmentations perform no
strip at all. -/
theorem aria_strip_coverage (dom : Dom) :
    ariaStrips (messageSetup dom true) = [".message-content"] ∧
    ariaStrips (nutritionSetup dom true) = [".nutrition-section"] ∧
    splits (heroSetup dom true) = [(".hero-title", "chars")] ∧
    ariaStrips (heroSetup dom true) = [] ∧
    splits (flavorTitleSetup dom true) =
      [(".first-text-split h1", "chars"), (".second-text-split h1", "chars")] ∧
    ariaStrips (flavorTitleSetup dom true) = [] :=
  ⟨rfl, rfl, rfl, rfl, rfl, rfl⟩

/-- Witness for C6 amended at the empty document. -/
theorem aria_strip_coverage_witness :
    ariaStrips (messageSetup emptyDom true) = [".message-content"] :=
  (aria_strip_coverage emptyDom).1

/-- C7 counterexample: in the hero timeline the char-stagger step (third,
inserted at minus-equals 0.5 s) starts at offset 500 ms, which is the end
of the previous step minus 0.5 s and not the start of the previous step
minus 0.5 s (that would be -500 ms). -/
theorem hero_overlap_offset_mismatch :
    heroMainTl.steps.map Step.start = [0, 0, 500] ∧
    (heroMainTl.steps.getD 2 step0).start ≠
      (heroMainTl.steps.getD 1 step0).start - 500 := by
  refine ⟨by decide, by decide⟩

/-- C7 amended: when the readiness flag is false the hero setup builds
nothing, so on a desktop viewport the hero timeline is built only once
readiness holds; it then yields the non-empty ordered step list
[fade-in, clip-reveal, char-stagger] with starts [0, 0, 0.5]: the
clip-reveal starts together with the fade-in, and the overlap step starts
at the previous step's end minus 0.5 s (not its start minus 0.5 s). -/
theorem hero_timeline_structure (dom : Dom) :
    heroSetup dom false = [] ∧
    timelinesOf (heroSetup dom true) = [heroMainTl, heroScrollTl] ∧
    heroMainTl.steps.length = 3 ∧
    heroMainTl.steps.map Step.start = [0, 0, 500] ∧
    (heroMainTl.steps.getD 2 step0).start =
      (heroMainTl.steps.getD 1 step0).start +
        (heroMainTl.steps.getD 1 step0).duration - 500 ∧
    (heroMainTl.steps.getD 1 step0).start =
      (heroMainTl.steps.getD 0 step0).start := by
  refine ⟨rfl, rfl, rfl, by decide, by decide, by decide⟩

/-- Witness for C7 amended: before readiness the hero setup is empty. -/
theorem hero_timeline_structure_witness :
    heroSetup emptyDom false = [] :=
  (hero_timeline_structure emptyDom).1

/-- C8: for every viewport width at or below the 1024 px tablet
breakpoint the FlavorSlider setup constructs no pinned timeline at all:
the desktop-only horizontal scroll feature is omitted entirely from the
effect list, whatever the measured scroll amount. -/
theorem flavorSlider_pin_omitted_on_small_viewports (dom : Dom) (w : Nat)
    (sa : Int) (h : w ≤ 1024) :
    isTabletAt w = true ∧
    pinnedTimelines (flavorSliderSetup dom (isTabletAt w) sa) = [] := by
  have ht : isTabletAt w = true := decide_eq_true h
  rw [ht]
  exact ⟨rfl, rfl⟩

/-- Witness for C8: at width 400 (mobile) no pinned timeline exists. -/
theorem flavorSlider_pin_omitted_witness :
    pinnedTimelines (flavorSliderSetup emptyDom (isTabletAt 400) 0) = [] :=
  (flavorSlider_pin_omitted_on_small_viewports emptyDom 400 0
    (by norm_num)).2

/-- A getD hit proves the index is in range. -/
theorem getD_some_lt_length (l : VideoRefs) (i : Nat) (b : Bool)
    (h : l.getD i none = some b) : i < l.length := by
  induction l generalizing i with
  | nil => simp [List.getD] at h
  | cons x xs ih =>
    cases i with
    | zero => simp
    | succ n =>
      have hx : xs.getD n none = some b := by simpa [List.getD] using h
      simpa using ih n hx

/-- Reading the written slot after set gives the written value. -/
theorem getD_set_self (l : VideoRefs) (i : Nat) (a : Option Bool)
    (h : i < l.length) : (l.set i a).getD i none = a := by
  induction l generalizing i with
  | nil => simp at h
  | cons x xs ih =>
    cases i with
    | zero => rfl
    | succ n =>
      have := ih n (by simpa using h)
      simpa [List.getD] using this

/-- Reading any other slot after set is unchanged. -/
theorem getD_set_ne (l : VideoRefs) (i j : Nat) (a : Option Bool)
    (h : j ≠ i) : (l.set i a).getD j none = l.getD j none := by
  induction l generalizing i j with
  | nil => rfl
  | cons x xs ih =>
    cases i with
    | zero =>
      cases j with
      | zero => exact absurd rfl h
      | succ m => rfl
    | succ n =>
      cases j with
      | zero => rfl
      | succ m =>
        have := ih n m (fun hc => h (by simpa using hc))
        simpa [List.getD] using this

/-- Writing back the value already stored leaves the list unchanged. -/
theorem set_getD_self (l : VideoRefs) (i : Nat) (a : Option Bool)
    (hi : i < l.length) (h : l.getD i none = a) : l.set i a = l := by
  induction l generalizing i with
  | nil => simp at hi
  | cons x xs ih =>
    cases i with
    | zero =>
      simp [List.getD] at h
      simp [h]
    | succ n =>
      have hx : xs.getD n none = a := by simpa [List.getD] using h
      simp [ih n (by simpa using hi) hx]

/-- C9: when the video reference at index i is populated, a hover-enter
invokes play on video i only (it becomes playing, every other slot is
unchanged) and a hover-leave invokes pause on video i only; playing an
already-playing video or pausing an already-paused one leaves the state
exactly as it was (a no-op, not an error). -/
theorem hover_play_pause_index_only (vd : VideoRefs) (i : Nat) (b : Bool)
    (h : vd.getD i none = some b) :
    (handlePlay vd i = Except.ok (vd.set i (some true)) ∧
      (vd.set i (some true)).getD i none = some true ∧
      (∀ j, j ≠ i → (vd.set i (some true)).getD j none = vd.getD j none) ∧
      (b = true → vd.set i (some true) = vd)) ∧
    (handlePause vd i = Except.ok (vd.set i (some false)) ∧
      (vd.set i (some false)).getD i none = some false ∧
      (∀ j, j ≠ i → (vd.set i (some false)).getD j none = vd.getD j none) ∧
      (b = false → vd.set i (some false) = vd)) := by
  have hlen : i < vd.length := getD_some_lt_length vd i b h
  constructor
  · refine ⟨?_, getD_set_self vd i (some true) hlen,
      fun j hj => getD_set_ne vd i j (some true) hj, ?_⟩
    · simp only [handlePlay, h]
    · intro hb
      subst hb
      exact set_getD_self vd i (some true) hlen h
  · refine ⟨?_, getD_set_self vd i (some false) hlen,
      fun j hj => getD_set_ne vd i j (some false) hj, ?_⟩
    · simp only [handlePause, h]
    · intro hb
      subst hb
      exact set_getD_self vd i (some false) hlen h

/-- Witness for C9: hover-enter on card 2 of a three-card state plays
video 2 only. -/
theorem hover_play_pause_index_only_witness :
    handlePlay [some false, some true, some false] 2 =
      Except.ok [some false, some true, some true] :=
  (hover_play_pause_index_only [some false, some true, some false] 2 false
    rfl).1.1

/-- C10: the hover handlers dereference the reference array with no
guard: for every index whose slot is unset, both handlers hit the
null-dereference error branch instead of returning a normal result, so
they are total only under the precondition that the card at that index
has mounted and populated its ref. -/
theorem hover_handlers_error_when_ref_unset (vd : VideoRefs) (i : Nat)
    (h : vd.getD i none = none) :
    handlePlay vd i =
      Except.error "TypeError: video element reference is unset" ∧
    handlePause vd i =
      Except.error "TypeError: video element reference is unset" := by
  constructor
  · simp only [handlePlay, h]
  · simp only [handlePause, h]

/-- Witness for C10: an unset slot (index 0 of a one-slot array holding
none) makes handlePlay error. -/
theorem hover_handlers_error_when_ref_unset_witness :
    handlePlay [none] 0 =
      Except.error "TypeError: video element reference is unset" :=
  (hover_handlers_error_when_ref_unset [none] 0 rfl).1
